import Mathlib

/-!
Verification development for the Omo-Onile Radar core: the Minna-to-WGS84
coordinate manager (src/utils/geo.py) and the geospatial risk engine
(src/utils/risk_engine.py).

Numbers are modelled as rationals (the Python code uses IEEE floats; all the
concrete inputs appearing below are short decimal literals whose float error
is far below every threshold involved, and no claim hinges on float
rounding).  The shapely geometry library used by risk_engine.py is modelled
by executable rational-arithmetic geometry: shoelace areas, a ring-simplicity
validity test, and Sutherland-Hodgman clipping (exact for intersections with
the convex rectangular registry zones).  Geometry calls that the Python code
guards with try/except are modelled as fallible functions (an abstract `Geom`
record of `Except`-valued primitives), so that the error-isolation behaviour
of the code can be stated for an arbitrary failing geometry backend.
-/

set_option maxRecDepth 10000
set_option allowUnsafeReducibility true
attribute [semireducible] Rat.add Rat.mul Rat.inv Rat.div Rat.sub Rat.neg Rat.ofScientific

/-! ## Rational plane geometry (model of the shapely primitives used) -/

/-- A point of the plane; risk_engine.py builds all polygons in (lat, lon)
axis order, so a `Point` is read as (latitude, longitude) there. -/
abbrev Point := ℚ × ℚ

/-- Cross product of the vectors o→a and o→b. -/
def crossP (o a b : Point) : ℚ :=
  (a.1 - o.1) * (b.2 - o.2) - (a.2 - o.2) * (b.1 - o.1)

/-- Dot product of two vectors. -/
def dotP (u v : Point) : ℚ := u.1 * v.1 + u.2 * v.2

/-- The directed edges of a closed ring given by its vertex list (the last
vertex connects back to the first, as shapely closes a LinearRing). -/
def ringEdges (vs : List Point) : List (Point × Point) := vs.zip (vs.rotate 1)

/-- Twice the signed area of a ring (shoelace sum). -/
def shoelace (vs : List Point) : ℚ :=
  ((ringEdges vs).map (fun e => e.1.1 * e.2.2 - e.2.1 * e.1.2)).sum

/-- Absolute polygon area, the model of the shapely `.area` property. -/
def polyArea (vs : List Point) : ℚ := |shoelace vs| / 2

/-- Whether q lies inside the bounding box of p and r (used for the
collinear cases of the segment-intersection test). -/
def onSeg (p q r : Point) : Bool :=
  decide (min p.1 r.1 ≤ q.1 ∧ q.1 ≤ max p.1 r.1 ∧
          min p.2 r.2 ≤ q.2 ∧ q.2 ≤ max p.2 r.2)

/-- Exact closed-segment intersection test (standard orientation-based
predicate with collinear on-segment handling). -/
def segIntersect (p1 p2 p3 p4 : Point) : Bool :=
  let d1 := crossP p3 p4 p1
  let d2 := crossP p3 p4 p2
  let d3 := crossP p1 p2 p3
  let d4 := crossP p1 p2 p4
  if ((0 < d1 ∧ d2 < 0) ∨ (d1 < 0 ∧ 0 < d2)) ∧
     ((0 < d3 ∧ d4 < 0) ∨ (d3 < 0 ∧ 0 < d4)) then true
  else if d1 = 0 ∧ onSeg p3 p1 p4 then true
  else if d2 = 0 ∧ onSeg p3 p2 p4 then true
  else if d3 = 0 ∧ onSeg p1 p3 p2 then true
  else if d4 = 0 ∧ onSeg p1 p4 p2 then true
  else false

/-- Spike test for two consecutive ring edges (a,b) and (b,c): the ring
doubles back at b when a, b, c are collinear and c returns towards a.
Collinear straight continuation is allowed, as in GEOS ring validity. -/
def spikeAt (a b c : Point) : Bool :=
  decide (crossP b a c = 0 ∧
          0 < dotP (a.1 - b.1, a.2 - b.2) (c.1 - b.1, c.2 - b.2))

/-- Model of the shapely `Polygon.is_valid` predicate for a ring: at least
three vertices, nonzero area, no spikes at shared vertices of consecutive
edges, and no contact at all between non-adjacent edges (simple ring). -/
def poly_is_valid (vs : List Point) : Bool :=
  let n := vs.length
  if n < 3 then false
  else if shoelace vs = 0 then false
  else
    let es := (ringEdges vs).enum
    es.all fun ie =>
      es.all fun je =>
        if ie.1 < je.1 then
          if je.1 = ie.1 + 1 then !spikeAt ie.2.1 ie.2.2 je.2.2
          else if ie.1 = 0 ∧ je.1 = n - 1 then !spikeAt je.2.1 je.2.2 ie.2.2
          else !segIntersect ie.2.1 ie.2.2 je.2.1 je.2.2
        else true

/-- Half-plane membership: p lies on or to the left of the directed line
a→b (for a counter-clockwise convex clip ring this is the inside). -/
def insideHP (a b p : Point) : Bool := decide (0 ≤ crossP a b p)

/-- Intersection of segment s-e with the line through a and b; only invoked
when s and e are on strictly different sides, so the denominator is
nonzero (the degenerate branch is unreachable but keeps the function total). -/
def lineInter (a b s e : Point) : Point :=
  let d1 := crossP a b s
  let d2 := crossP a b e
  if d1 = d2 then e
  else
    let t := d1 / (d1 - d2)
    (s.1 + t * (e.1 - s.1), s.2 + t * (e.2 - s.2))

/-- One Sutherland-Hodgman pass: clip a subject ring against the half-plane
left of a→b. -/
def clipHP (subject : List Point) (a b : Point) : List Point :=
  (ringEdges subject).foldl
    (fun acc se =>
      if insideHP a b se.2 then
        if insideHP a b se.1 then acc ++ [se.2]
        else acc ++ [lineInter a b se.1 se.2, se.2]
      else
        if insideHP a b se.1 then acc ++ [lineInter a b se.1 se.2]
        else acc)
    []

/-- Sutherland-Hodgman clipping of a subject ring against a convex clip
ring (the clip ring is normalised to counter-clockwise orientation first).
Models the shapely `intersection` of a parcel with the rectangular registry
zones. -/
def sutherlandHodgman (subject clip : List Point) : List Point :=
  let c := if shoelace clip < 0 then clip.reverse else clip
  (ringEdges c).foldl (fun out ab => clipHP out ab.1 ab.2) subject

/-! ## Python-style rounding and fixed-point formatting -/

/-- Round to the nearest integer with ties to even, as the Python built-in
`round` and the `:.1f` / `:.2f` format specifiers do. -/
def rhe (q : ℚ) : ℤ :=
  if q - ⌊q⌋ = 1 / 2 then (if ⌊q⌋ % 2 = 0 then ⌊q⌋ else ⌊q⌋ + 1)
  else ⌊q + 1 / 2⌋

/-- Model of the Python `round(x, d)` builtin on our rational values. -/
def pyRound (d : ℕ) (q : ℚ) : ℚ := (rhe (q * 10 ^ d) : ℚ) / 10 ^ d

/-- Model of the Python `int(x)` truncation towards zero. -/
def pyInt (q : ℚ) : ℤ := if q < 0 then -⌊-q⌋ else ⌊q⌋

/-- Fixed-point rendering of a nonnegative rational with d fractional
digits. -/
def fmtFixedNN (d : ℕ) (q : ℚ) : String :=
  let n := (rhe (q * 10 ^ d)).toNat
  let ip := n / 10 ^ d
  let fp := n % 10 ^ d
  let fs := toString fp
  let pad := String.mk (List.replicate (d - fs.length) (Char.ofNat 48))
  toString ip ++ "." ++ pad ++ fs

/-- Model of the Python format specifier `:.df` (fixed-point with d
fractional digits, ties to even). -/
def fmtFixed (d : ℕ) (q : ℚ) : String :=
  if q < 0 then "-" ++ fmtFixedNN d (-q) else fmtFixedNN d q

/-! ## RiskRadar (embedding of src/utils/risk_engine.py) -/

/-- Thresholds of risk_engine.py: percentage overlap for DANGER status. -/
def DANGER_THRESHOLD : ℚ := 20

/-- Percentage overlap for CAUTION status. -/
def CAUTION_THRESHOLD : ℚ := 5

/-- A registry zone record, as in `RiskRadar.GOVERNMENT_ZONES`.  The
`coordinates` list is stored in (lon, lat) axis order, exactly as the
source table is written. -/
structure Zone where
  zone_id : String
  zone_name : String
  zone_type : String
  acquisition_date : String
  severity_level : String
  coordinates : List (ℚ × ℚ)
  description : String
deriving DecidableEq

/-- The mock government acquisition database, in the insertion order of the
Python dict (which iteration preserves). -/
def GOVERNMENT_ZONES : List (String × Zone) :=
  [("lekki_gov_acquisition",
    { zone_id := "gov_001"
      zone_name := "Lekki Government Acquisition Zone"
      zone_type := "Government Acquisition"
      acquisition_date := "2006-01-01"
      severity_level := "HIGH"
      coordinates := [(3.503, 6.447), (3.558, 6.447), (3.558, 6.401), (3.503, 6.401)]
      description := "Federal government acquisition zone covering Lekki Peninsula" }),
   ("vi_waterfront",
    { zone_id := "gov_002"
      zone_name := "Victoria Island Waterfront Restriction"
      zone_type := "Waterfront Restriction"
      acquisition_date := "2010-05-15"
      severity_level := "MEDIUM"
      coordinates := [(3.390, 6.445), (3.410, 6.445), (3.410, 6.465), (3.390, 6.465)]
      description := "Coastal protection and waterfront development restrictions" }),
   ("ikeja_military",
    { zone_id := "gov_003"
      zone_name := "Ikeja Military Reserve"
      zone_type := "Military Reserve"
      acquisition_date := "1995-03-20"
      severity_level := "HIGH"
      coordinates := [(3.320, 6.580), (3.340, 6.580), (3.340, 6.600), (3.320, 6.600)]
      description := "Nigerian Air Force military installation and buffer zone" }),
   ("badagry_creek",
    { zone_id := "gov_004"
      zone_name := "Badagry Creek Environmental Protection"
      zone_type := "Environmental Protection"
      acquisition_date := "2015-08-10"
      severity_level := "MEDIUM"
      coordinates := [(2.900, 6.400), (2.950, 6.400), (2.950, 6.450), (2.900, 6.450)]
      description := "Environmental protection zone for Badagry Creek ecosystem" })]

/-- Zone ring converted from the stored (lon, lat) order to the (lat, lon)
order in which `_initialize_zone_polygons` builds the shapely polygon. -/
def zonePolyCoords (z : Zone) : List Point := z.coordinates.map (fun c => (c.2, c.1))

/-- The `_zone_polygons` cache built at engine initialization: one polygon
per registry zone whose swapped ring is a valid polygon (an invalid ring is
logged and excluded, never an error). -/
def zone_polygons : List (String × List Point) :=
  GOVERNMENT_ZONES.filterMap (fun p =>
    let poly := zonePolyCoords p.2
    if poly_is_valid poly then some (p.1, poly) else none)

/-- Lookup in the `_zone_polygons` cache. -/
def lookupZonePoly (zid : String) : Option (List Point) :=
  (zone_polygons.find? (fun p => p.1 = zid)).map (fun p => p.2)

/-- The geometry backend seen by `check_intersection`: the two shapely calls
that the code wraps in try/except, `intersects` and `intersection`, modelled
as fallible functions so that a GEOS failure on one zone can be expressed. -/
structure Geom where
  intersectsE : List Point → List Point → Except Unit Bool
  interE : List Point → List Point → Except Unit (List Point)

/-- The pure geometry backend used for concrete runs: `intersection` is
Sutherland-Hodgman clipping and `intersects` reports a positive-area
intersection (boundary-only touching is modelled as non-intersecting; no
claim below depends on boundary contact). -/
def pureGeom : Geom where
  intersectsE := fun p q => .ok (decide (0 < polyArea (sutherlandHodgman p q)))
  interE := fun p q => .ok (sutherlandHodgman p q)

/-- Embedding of `RiskRadar._validate_wgs84_coordinates` on the vertex list
starting at a given index (the Python loop over `enumerate(coordinates)`).
NaN and infinity are not representable in ℚ, so the two non-finiteness
checks of the source are vacuous here. -/
def validateVerts : ℕ → List Point → Bool × Option String
  | _, [] => (true, none)
  | idx, (lat, lon) :: rest =>
    if ¬(3 ≤ lat ∧ lat ≤ 15) then
      (false, some ("Latitude " ++ toString lat ++ " at index " ++ toString idx ++
        " is outside Nigeria\x27s bounds (3.0-15.0)"))
    else if ¬(5/2 ≤ lon ∧ lon ≤ 16) then
      (false, some ("Longitude " ++ toString lon ++ " at index " ++ toString idx ++
        " is outside Nigeria\x27s bounds (2.5-16.0)"))
    else validateVerts (idx + 1) rest

/-- Embedding of `RiskRadar._validate_wgs84_coordinates`. -/
def validate_wgs84_coordinates (coordinates : List Point) : Bool × Option String :=
  if coordinates.isEmpty then (false, some "No coordinates provided")
  else if coordinates.length < 3 then
    (false, some "At least 3 coordinates required to form a polygon")
  else validateVerts 0 coordinates

/-- Embedding of `RiskRadar._calculate_overlap_percentage`: 0 for invalid
polygons, empty intersections, non-positive land area or a geometry-engine
failure (the source catches those exceptions and returns 0.0); otherwise
intersection area over land area times 100. -/
def calculate_overlap_percentage (g : Geom) (land_polygon zone_polygon : List Point) : ℚ :=
  if ¬ poly_is_valid land_polygon ∨ ¬ poly_is_valid zone_polygon then 0
  else
    match g.interE land_polygon zone_polygon with
    | .error _ => 0
    | .ok intersection =>
      if intersection.isEmpty then 0
      else
        let land_area := polyArea land_polygon
        let intersection_area := polyArea intersection
        if land_area ≤ 0 then 0
        else intersection_area / land_area * 100

/-- The `base_severity` local of `_calculate_severity_score`: the value of
the zone-type dictionary lookup with default 3. -/
def base_severity_of (zone_type : String) : ℤ :=
  if zone_type = "Government Acquisition" then 5
  else if zone_type = "Military Reserve" then 5
  else if zone_type = "Waterfront Restriction" then 3
  else if zone_type = "Environmental Protection" then 2
  else 3

/-- The `overlap_multiplier` local of `_calculate_severity_score`. -/
def overlap_multiplier_of (overlap_percentage : ℚ) : ℚ :=
  if overlap_percentage > DANGER_THRESHOLD then 3/2
  else if overlap_percentage > CAUTION_THRESHOLD then 6/5
  else 1

/-- Embedding of `RiskRadar._calculate_severity_score` (the Python `int()`
truncation is `pyInt`). -/
def calculate_severity_score (zone_data : Zone) (overlap_percentage : ℚ) : ℤ :=
  min 5 (pyInt ((base_severity_of zone_data.zone_type : ℚ) *
    overlap_multiplier_of overlap_percentage))

/-- One entry of the `intersections` list built by `check_intersection`. -/
structure Intersection where
  zone_id : String
  zone_name : String
  zone_type : String
  severity : String
  overlap_percentage : ℚ
  intersection_area : ℚ
  acquisition_date : String
  description : String
deriving DecidableEq

/-- The verdict record returned by `check_intersection`. -/
structure RiskResult where
  status : String
  message : String
  intersections : List Intersection
  recommendations : List String
deriving DecidableEq

/-- Errors of `check_intersection`: `CoordinateValidationError` is re-raised
as is; every other exception is wrapped into `RiskAnalysisError` by the
outer handler (unreachable in this total model, where the only fallible
steps are the per-zone geometry calls, which the loop catches itself). -/
inductive RiskErr where
  | validationError (msg : String)
  | riskAnalysisError (msg : String)
deriving DecidableEq

/-- The three SAFE recommendations of `_determine_risk_status`. -/
def safeRecs : List String :=
  ["Preliminary risk assessment appears favorable",
   "Recommend verifying with Lagos State Land Bureau for official confirmation",
   "Ensure all necessary permits and approvals are obtained"]

/-- The four urgent recommendations of the high-severity DANGER branch. -/
def urgentRecs : List String :=
  ["URGENT: Contact Lagos State Land Bureau immediately",
   "Verify official land status with Federal Ministry of Works",
   "Engage qualified legal counsel specializing in land acquisition",
   "Consider alternative properties outside restricted zones"]

/-- The four recommendations of the high-overlap DANGER branch. -/
def overlapRecs : List String :=
  ["Consult with Lagos State Land Bureau",
   "Engage professional land surveyor for verification",
   "Review property title documentation thoroughly",
   "Consider renegotiating purchase terms"]

/-- The four recommendations of the CAUTION branch. -/
def cautionRecs : List String :=
  ["Verify exact boundaries with official sources",
   "Consult local land registry office",
   "Request additional documentation from seller",
   "Consider professional land survey before purchase"]

/-- Membership test of the high-severity zone-type list of
`_determine_risk_status`. -/
def isHighSeverityType (i : Intersection) : Bool :=
  i.zone_type = "Government Acquisition" || i.zone_type = "Military Reserve"

/-- Overlap-percentage test of the significant-overlap branch. -/
def isSignificantOverlap (i : Intersection) : Bool :=
  decide (DANGER_THRESHOLD < i.overlap_percentage)

/-- Embedding of `RiskRadar._determine_risk_status`.  The `maxSeverity`
argument is accepted, as in the source, but never read by the body. -/
def determine_risk_status (intersections : List Intersection) (_maxSeverity : ℤ) :
    String × String × List String :=
  if intersections.isEmpty then
    ("SAFE", "No intersections with known restricted zones detected.", safeRecs)
  else
    match intersections.filter isHighSeverityType with
    | h :: _ =>
      ("DANGER", "CRITICAL: Land overlaps with " ++ h.zone_name ++ ".", urgentRecs)
    | [] =>
      match intersections.filter isSignificantOverlap with
      | s :: _ =>
        ("DANGER",
         "High overlap percentage (" ++ fmtFixed 1 s.overlap_percentage ++
           "%) with restricted zone.", overlapRecs)
      | [] =>
        let total_overlap := (intersections.map (fun i => i.overlap_percentage)).sum
        ("CAUTION",
         "Potential risk detected. " ++ toString intersections.length ++
           " zone(s) nearby with " ++ fmtFixed 1 total_overlap ++ "% total overlap.",
         cautionRecs)

/-- One iteration of the zone loop of `check_intersection`: the optional
intersection record contributed by the zone together with the severity
score that updates `max_severity`.  A zone with no cached polygon is
skipped; a geometry failure in either shapely call is caught and the zone
skipped (the severity update has already happened when the second call,
made while building the record, fails - exactly as in the source, where
`max_severity` is updated before the record is built). -/
def zoneStep (g : Geom) (land_polygon : List Point) (zid : String) (zone_data : Zone) :
    Option Intersection × ℤ :=
  match lookupZonePoly zid with
  | none => (none, 0)
  | some zone_polygon =>
    match g.intersectsE land_polygon zone_polygon with
    | .error _ => (none, 0)
    | .ok false => (none, 0)
    | .ok true =>
      let overlap_percentage := calculate_overlap_percentage g land_polygon zone_polygon
      let severity_score := calculate_severity_score zone_data overlap_percentage
      match g.interE land_polygon zone_polygon with
      | .error _ => (none, severity_score)
      | .ok intersection =>
        (some { zone_id := zone_data.zone_id
                zone_name := zone_data.zone_name
                zone_type := zone_data.zone_type
                severity := zone_data.severity_level
                overlap_percentage := pyRound 2 overlap_percentage
                intersection_area := pyRound 6 (polyArea intersection)
                acquisition_date := zone_data.acquisition_date
                description := zone_data.description },
         severity_score)

/-- The zone loop of `check_intersection`: collects intersection records in
registry iteration order and the maximum severity over all scored zones
(`max_severity` starts at 0). -/
def zoneLoop (g : Geom) (land_polygon : List Point) :
    List (String × Zone) → List Intersection × ℤ
  | [] => ([], 0)
  | (zid, zone_data) :: rest =>
    let step := zoneStep g land_polygon zid zone_data
    let restResult := zoneLoop g land_polygon rest
    (match step.1 with
     | none => restResult.1
     | some info => info :: restResult.1,
     max step.2 restResult.2)

/-- The zone set selected by `check_intersection`: the single zone named by
the filter when it is a registry key, otherwise the full registry. -/
def zones_to_check (zone_filter : Option String) : List (String × Zone) :=
  match zone_filter with
  | some zf =>
    match GOVERNMENT_ZONES.find? (fun p => p.1 = zf) with
    | some entry => [entry]
    | none => GOVERNMENT_ZONES
  | none => GOVERNMENT_ZONES

/-- Embedding of `RiskRadar.check_intersection`.  In the source, polygon
construction from a validated vertex list cannot raise (the GEOSException
branch turns construction failures into `CoordinateValidationError`), and
the outer catch-all that wraps any unexpected exception into
`RiskAnalysisError` is unreachable in this total model, whose only fallible
steps - the per-zone geometry calls - are caught inside the loop. -/
def check_intersection (g : Geom) (land_coordinates : List Point)
    (zone_filter : Option String) : Except RiskErr RiskResult :=
  let validation := validate_wgs84_coordinates land_coordinates
  if validation.1 = false then .error (.validationError (validation.2.getD ""))
  else if ¬ poly_is_valid land_coordinates then
    .error (.validationError "Land coordinates form an invalid polygon")
  else
    let loopResult := zoneLoop g land_coordinates (zones_to_check zone_filter)
    let verdict := determine_risk_status loopResult.1 loopResult.2
    .ok { status := verdict.1
          message := verdict.2.1
          intersections := loopResult.1
          recommendations := verdict.2.2 }

/-- The concrete parcel of the spec example: (lat, lon) vertices. -/
def exampleParcel : List Point :=
  [(6.4475, 3.52), (6.4475, 3.53), (6.4445, 3.53), (6.4445, 3.52)]

/-! ## CoordinateManager (embedding of src/utils/geo.py) -/

/-- Valid coordinate ranges for the Nigerian Minna Datum. -/
def MIN_EASTING : ℚ := 100000

/-- Upper easting bound. -/
def MAX_EASTING : ℚ := 900000

/-- Lower northing bound. -/
def MIN_NORTHING : ℚ := 500000

/-- Upper northing bound. -/
def MAX_NORTHING : ℚ := 1600000

/-- Embedding of `CoordinateManager.validate_coordinates`.  The numeric and
finiteness checks of the source cannot fail on ℚ inputs, so the function
reduces to the two range checks with their exact messages. -/
def validate_coordinates (easting northing : ℚ) : Bool × Option String :=
  if ¬(MIN_EASTING ≤ easting ∧ easting ≤ MAX_EASTING) then
    (false, some ("Easting coordinate " ++ fmtFixed 2 easting ++
      " is outside valid range (" ++ toString MIN_EASTING ++ " - " ++
      toString MAX_EASTING ++ " meters). Please verify the coordinate value."))
  else if ¬(MIN_NORTHING ≤ northing ∧ northing ≤ MAX_NORTHING) then
    (false, some ("Northing coordinate " ++ fmtFixed 2 northing ++
      " is outside valid range (" ++ toString MIN_NORTHING ++ " - " ++
      toString MAX_NORTHING ++ " meters). Please verify the coordinate value."))
  else (true, none)

/-- Errors of the coordinate manager: `CoordinateValidationError` and
`CoordinateTransformationError` of geo.py. -/
inductive ConvErr where
  | validationError (msg : String)
  | transformationError (msg : String)
deriving DecidableEq

/-- The message carried by an error, the model of the Python `str(e)`. -/
def ConvErr.message : ConvErr → String
  | .validationError m => m
  | .transformationError m => m

/-- The two pyproj transformers built at initialization, one per supported
zone.  The underlying geodetic projection is an external library call,
modelled as an abstract fallible function per zone (the source catches
`ProjError` from it). -/
structure Projections where
  z31 : ℚ → ℚ → Except String (ℚ × ℚ)
  z32 : ℚ → ℚ → Except String (ℚ × ℚ)

/-- The `_transformers` dictionary: keys 26331 (Zone 31N) and 26332
(Zone 32N) only. -/
def transformersLookup (P : Projections) (zone : ℤ) :
    Option (ℚ → ℚ → Except String (ℚ × ℚ)) :=
  if zone = 26331 then some P.z31
  else if zone = 26332 then some P.z32
  else none

/-- Embedding of `CoordinateManager.convert_minna_to_wgs84`.  The result
pairs the returned (longitude, latitude) with the flag saying whether the
out-of-envelope warning was logged (the source logs and still returns). -/
def convert_minna_to_wgs84 (P : Projections) (easting northing : ℚ) (zone : ℤ) :
    Except ConvErr ((ℚ × ℚ) × Bool) :=
  let validation := validate_coordinates easting northing
  if validation.1 = false then .error (.validationError (validation.2.getD ""))
  else
    match transformersLookup P zone with
    | none =>
      .error (.transformationError ("Invalid zone " ++ toString zone ++
        ". Valid zones are [26331, 26332]. Use 26331 for West Lagos or 26332 for East Lagos."))
    | some transformer =>
      match transformer easting northing with
      | .error e => .error (.transformationError ("Coordinate transformation failed: " ++ e))
      | .ok (longitude, latitude) =>
        let warned := ¬(2 ≤ longitude ∧ longitude ≤ 16 ∧ 3 ≤ latitude ∧ latitude ≤ 15)
        .ok ((longitude, latitude), decide warned)

/-- An element of the list passed to `batch_convert`: a Python dict that
may lack the easting or northing key. -/
structure CoordItem where
  eastingKey : Option ℚ
  northingKey : Option ℚ
deriving DecidableEq

/-- Rendering of a coordinate dict inside batch error messages, the model
of the Python `f"({coord})"` interpolation (numbers are rendered as
rationals rather than Python floats). -/
def itemRepr (c : CoordItem) : String :=
  let field : Option ℚ → String := fun v =>
    match v with
    | some q => toString q
    | none => "missing"
  "\x7b\x27easting\x27: " ++ field c.eastingKey ++
    ", \x27northing\x27: " ++ field c.northingKey ++ "\x7d"

/-- One converted batch element: originals plus WGS84 output. -/
structure ConvertedCoord where
  easting : ℚ
  northing : ℚ
  longitude : ℚ
  latitude : ℚ
deriving DecidableEq

/-- The error line appended to the `errors` list of `batch_convert` for a
failing index: the Python interpolation
`f"Error converting coordinate {idx} ({coord}): {str(e)}"`. -/
def batchItemError (idx : ℕ) (c : CoordItem) (msg : String) : String :=
  "Error converting coordinate " ++ toString idx ++ " (" ++ itemRepr c ++ "): " ++ msg

/-- One iteration of the `batch_convert` loop: the missing-key check, the
single conversion, and the per-index error message the source appends to
its `errors` list when either raises. -/
def batchItem (P : Projections) (zone : ℤ) (idx : ℕ) (c : CoordItem) :
    Except String ConvertedCoord :=
  match c.eastingKey, c.northingKey with
  | some easting, some northing =>
    match convert_minna_to_wgs84 P easting northing zone with
    | .ok ((longitude, latitude), _) =>
      .ok { easting := easting, northing := northing
            longitude := longitude, latitude := latitude }
    | .error e => .error (batchItemError idx c e.message)
  | _, _ =>
    .error (batchItemError idx c
      ("Coordinate " ++ toString idx ++ " missing \x27easting\x27 or \x27northing\x27 key"))

/-- The `batch_convert` loop from a given index: converted elements and
error messages, both in input order. -/
def batchLoop (P : Projections) (zone : ℤ) :
    ℕ → List CoordItem → List ConvertedCoord × List String
  | _, [] => ([], [])
  | idx, c :: rest =>
    let restResult := batchLoop P zone (idx + 1) rest
    match batchItem P zone idx c with
    | .ok r => (r :: restResult.1, restResult.2)
    | .error e => (restResult.1, e :: restResult.2)

/-- Embedding of `CoordinateManager.batch_convert`: empty input returns an
empty list; otherwise all elements are attempted, and if any failed the
whole batch fails with one message enumerating every per-index error. -/
def batch_convert (P : Projections) (coordinates : List CoordItem) (zone : ℤ) :
    Except String (List ConvertedCoord) :=
  if coordinates.isEmpty then .ok []
  else
    let loopResult := batchLoop P zone 0 coordinates
    if loopResult.2.isEmpty then .ok loopResult.1
    else
      .error ("Failed to convert " ++ toString loopResult.2.length ++ " out of " ++
        toString coordinates.length ++ " coordinates:\n" ++
        String.intercalate "\n" loopResult.2)

/-! ## Auxiliary definitions for the claim statements and witnesses -/

/-- Modelled from the spec: base severity by zone type, Government
Acquisition 5, Military Reserve 5, Waterfront Restriction 3, Environmental
Protection 2, unknown type 3. -/
def specSeverityBase (zone_type : String) : ℤ :=
  if zone_type = "Government Acquisition" then 5
  else if zone_type = "Military Reserve" then 5
  else if zone_type = "Waterfront Restriction" then 3
  else if zone_type = "Environmental Protection" then 2
  else 3

/-- Modelled from the spec: multiplier 1.5 if the overlap percentage
exceeds 20, else 1.2 if it exceeds 5, else 1.0. -/
def specSeverityMultiplier (overlap_percentage : ℚ) : ℚ :=
  if 20 < overlap_percentage then 3/2
  else if 5 < overlap_percentage then 6/5
  else 1

/-- The two unit squares used as the C7 witness input: half of the first
overlaps the second. -/
def witnessSquareA : List Point := [(0, 0), (1, 0), (1, 1), (0, 1)]

/-- Second witness square, shifted by one half. -/
def witnessSquareB : List Point := [(1/2, 0), (3/2, 0), (3/2, 1), (1/2, 1)]

/-- The error messages collected by a `batch_convert` run: one per failing
index, in input order. -/
def batchFailures (P : Projections) (coordinates : List CoordItem) (zone : ℤ) : List String :=
  coordinates.enum.filterMap (fun p =>
    match batchItem P zone p.1 p.2 with
    | .ok _ => none
    | .error e => some e)

/-- A trivial projection backend for concrete batch runs (the geodetic
projection itself is external to the repository; C3 and C9 hold for every
backend). -/
def identityProjections : Projections where
  z31 := fun e n => .ok (e, n)
  z32 := fun e n => .ok (e, n)

/-- Six batch items: five valid, index 2 with an out-of-range easting. -/
def witnessBatch : List CoordItem :=
  [{ eastingKey := some 500000, northingKey := some 700000 },
   { eastingKey := some 501000, northingKey := some 701000 },
   { eastingKey := some 50000, northingKey := some 700000 },
   { eastingKey := some 502000, northingKey := some 702000 },
   { eastingKey := some 503000, northingKey := some 703000 },
   { eastingKey := some 504000, northingKey := some 704000 }]

/-- Decidable equality of `Except` results, for concrete evaluations. -/
instance {ε α : Type} [DecidableEq ε] [DecidableEq α] : DecidableEq (Except ε α) := fun a b =>
  match a, b with
  | .ok x, .ok y =>
    match decEq x y with
    | isTrue h => isTrue (by rw [h])
    | isFalse h => isFalse (fun hh => h (by injection hh))
  | .error x, .error y =>
    match decEq x y with
    | isTrue h => isTrue (by rw [h])
    | isFalse h => isFalse (fun hh => h (by injection hh))
  | .ok _, .error _ => isFalse (fun hh => by injection hh)
  | .error _, .ok _ => isFalse (fun hh => by injection hh)

/-- A parcel far away from every registry zone (latitudes and longitudes
near 10 degrees), used to exercise the SAFE branch. -/
def safeParcel : List Point := [(10, 10), (10, 10.01), (10.01, 10.01), (10.01, 10)]

/-- The verdict `check_intersection` returns for `safeParcel`. -/
def safeVerdict : RiskResult where
  status := "SAFE"
  message := "No intersections with known restricted zones detected."
  intersections := []
  recommendations := safeRecs


/-! ## Helper lemmas -/

/-- On nonnegative rationals the Python truncation agrees with the floor. -/
lemma pyInt_eq_floor {q : ℚ} (h : 0 ≤ q) : pyInt q = ⌊q⌋ := by
  unfold pyInt
  rw [if_neg (not_lt.mpr h)]

/-- The base severity is at least 2 for every zone type. -/
lemma base_severity_ge_two (zone_type : String) : 2 ≤ base_severity_of zone_type := by
  unfold base_severity_of
  split_ifs <;> norm_num

/-- The overlap multiplier is at least 1 for every overlap percentage. -/
lemma overlap_multiplier_ge_one (op : ℚ) : 1 ≤ overlap_multiplier_of op := by
  unfold overlap_multiplier_of
  split_ifs <;> norm_num

/-! ## Claim theorems -/

/-- Claim C9: `batch_convert` applied to the empty coordinate list returns
the empty list for every projection backend and every zone argument, and
never raises an error. -/
theorem c9_batch_convert_empty (P : Projections) (zone : ℤ) :
    batch_convert P [] zone = .ok [] := rfl

/-- Claim C4: for every intersecting zone the computed severity score
equals min(5, floor(base x multiplier)) with the base and multiplier tables
as the spec states them (the Python `int()` truncation agrees with floor
because base and multiplier are nonnegative). -/
theorem c4_severity_score_formula (zone_data : Zone) (op : ℚ) :
    calculate_severity_score zone_data op =
      min 5 ⌊(specSeverityBase zone_data.zone_type : ℚ) * specSeverityMultiplier op⌋ := by
  have hb : (0 : ℤ) ≤ specSeverityBase zone_data.zone_type := by
    unfold specSeverityBase
    split_ifs <;> norm_num
  have hbq : (0 : ℚ) ≤ (specSeverityBase zone_data.zone_type : ℚ) := by exact_mod_cast hb
  have hm : (0 : ℚ) ≤ specSeverityMultiplier op := by
    unfold specSeverityMultiplier
    split_ifs <;> norm_num
  show min 5 (pyInt ((specSeverityBase zone_data.zone_type : ℚ) * specSeverityMultiplier op)) = _
  rw [pyInt_eq_floor (mul_nonneg hbq hm)]

/-- Claim C10 (implicit): the severity score always lies in [2, 5]; in
particular it never attains the documented minimum 1, because the smallest
base severity is 2 and every multiplier is at least 1. -/
theorem c10_severity_score_range (zone_data : Zone) (op : ℚ) :
    2 ≤ calculate_severity_score zone_data op ∧ calculate_severity_score zone_data op ≤ 5 := by
  unfold calculate_severity_score
  refine ⟨le_min (by norm_num) ?_, min_le_left _ _⟩
  have hb := base_severity_ge_two zone_data.zone_type
  have hbq : (2 : ℚ) ≤ (base_severity_of zone_data.zone_type : ℚ) := by exact_mod_cast hb
  have hbq0 : (0 : ℚ) ≤ (base_severity_of zone_data.zone_type : ℚ) := le_trans (by norm_num) hbq
  have hm := overlap_multiplier_ge_one op
  have hx : (2 : ℚ) ≤ (base_severity_of zone_data.zone_type : ℚ) * overlap_multiplier_of op := by
    calc (2 : ℚ) ≤ (base_severity_of zone_data.zone_type : ℚ) := hbq
    _ = (base_severity_of zone_data.zone_type : ℚ) * 1 := (mul_one _).symm
    _ ≤ (base_severity_of zone_data.zone_type : ℚ) * overlap_multiplier_of op :=
        mul_le_mul_of_nonneg_left hm hbq0
  rw [pyInt_eq_floor (le_trans (by norm_num) hx)]
  exact Int.le_floor.mpr (by exact_mod_cast hx)

/-- Claim C8: `validate_coordinates` fails on any out-of-range input with a
message naming the offending field, its value (2-decimal fixed point) and
the violated bounds; concretely (easting 50000, northing 700000) is
rejected naming Easting, 50000.00, and the minimum bound 100000. -/
theorem c8_validate_coordinates_messages :
    (∀ easting northing : ℚ, ¬(MIN_EASTING ≤ easting ∧ easting ≤ MAX_EASTING) →
      validate_coordinates easting northing =
        (false, some ("Easting coordinate " ++ fmtFixed 2 easting ++
          " is outside valid range (" ++ toString MIN_EASTING ++ " - " ++
          toString MAX_EASTING ++ " meters). Please verify the coordinate value."))) ∧
    (∀ easting northing : ℚ, (MIN_EASTING ≤ easting ∧ easting ≤ MAX_EASTING) →
      ¬(MIN_NORTHING ≤ northing ∧ northing ≤ MAX_NORTHING) →
      validate_coordinates easting northing =
        (false, some ("Northing coordinate " ++ fmtFixed 2 northing ++
          " is outside valid range (" ++ toString MIN_NORTHING ++ " - " ++
          toString MAX_NORTHING ++ " meters). Please verify the coordinate value."))) ∧
    validate_coordinates 50000 700000 =
      (false, some ("Easting coordinate 50000.00 is outside valid range " ++
        "(100000 - 900000 meters). Please verify the coordinate value.")) := by
  refine ⟨?_, ?_, by decide⟩
  · intro easting northing h
    unfold validate_coordinates
    rw [if_pos h]
  · intro easting northing h1 h2
    unfold validate_coordinates
    rw [if_neg (not_not_intro h1), if_pos h2]

/-- Witness for C8 at the concrete coordinate of the claim. -/
theorem c8_validate_coordinates_messages_witness :
    validate_coordinates 50000 700000 =
      (false, some ("Easting coordinate 50000.00 is outside valid range " ++
        "(100000 - 900000 meters). Please verify the coordinate value.")) := by
  have h := c8_validate_coordinates_messages.1 50000 700000
    (by unfold MIN_EASTING MAX_EASTING; norm_num)
  exact h.trans (by decide)

/-- Claim C7: the overlap percentage is intersection area over parcel area
times 100, and it is 0 whenever the parcel area is non-positive - the
division is guarded and never performed on a non-positive area. -/
theorem c7_overlap_percentage_formula (g : Geom) (land zone inter : List Point) :
    (polyArea land ≤ 0 → calculate_overlap_percentage g land zone = 0) ∧
    (poly_is_valid land = true → poly_is_valid zone = true →
      g.interE land zone = .ok inter →
      calculate_overlap_percentage g land zone =
        if polyArea land ≤ 0 then 0 else polyArea inter / polyArea land * 100) := by
  constructor
  · intro hle
    unfold calculate_overlap_percentage
    split_ifs with h
    · rfl
    · cases hE : g.interE land zone with
      | error e => simp [hE]
      | ok i =>
        simp only [hE]
        cases i with
        | nil => simp [List.isEmpty]
        | cons a as => simp [List.isEmpty, hle]
  · intro hl hz hE
    unfold calculate_overlap_percentage
    rw [if_neg (by simp [hl, hz])]
    simp only [hE]
    cases inter with
    | nil =>
      have h0 : polyArea ([] : List Point) = 0 := by decide
      simp [List.isEmpty, h0]
    | cons a as =>
      simp [List.isEmpty]

/-- Witness for C7: concrete half-overlapping unit squares give 50%. -/
theorem c7_overlap_percentage_formula_witness :
    calculate_overlap_percentage pureGeom witnessSquareA witnessSquareB = 50 := by
  have h := (c7_overlap_percentage_formula pureGeom witnessSquareA witnessSquareB
    (sutherlandHodgman witnessSquareA witnessSquareB)).2 (by decide) (by decide) rfl
  exact h.trans (by decide)

/-- The batch loop splits the enumerated input into converted results and
per-index error messages by the outcome of each item. -/
lemma batchLoop_eq (P : Projections) (zone : ℤ) (l : List CoordItem) :
    ∀ k, batchLoop P zone k l =
      ((List.enumFrom k l).filterMap (fun p => (batchItem P zone p.1 p.2).toOption),
       (List.enumFrom k l).filterMap (fun p =>
         match batchItem P zone p.1 p.2 with
         | .ok _ => none
         | .error e => some e)) := by
  induction l with
  | nil => intro k; rfl
  | cons c rest ih =>
    intro k
    simp only [batchLoop, List.enumFrom, List.filterMap_cons, ih (k + 1)]
    cases hI : batchItem P zone k c with
    | ok r => simp [hI, Except.toOption]
    | error e => simp [hI, Except.toOption]

/-- Claim C3: `batch_convert` is all-or-nothing.  If the batch succeeds no
element failed; if any element fails the whole call returns one
`TransformationError` whose message enumerates every failing index with
its specific error, and each collected error message names its index. -/
theorem c3_batch_convert_all_or_nothing (P : Projections) (coordinates : List CoordItem)
    (zone : ℤ) :
    (∀ r, batch_convert P coordinates zone = .ok r → batchFailures P coordinates zone = []) ∧
    (batchFailures P coordinates zone ≠ [] →
      batch_convert P coordinates zone =
        .error ("Failed to convert " ++ toString (batchFailures P coordinates zone).length ++
          " out of " ++ toString coordinates.length ++ " coordinates:\n" ++
          String.intercalate "\n" (batchFailures P coordinates zone))) ∧
    (∀ i c e, (i, c) ∈ coordinates.enum → batchItem P zone i c = .error e →
      ∃ rest, e = "Error converting coordinate " ++ toString i ++ rest) := by
  have hfail : batchFailures P coordinates zone = (batchLoop P zone 0 coordinates).2 := by
    rw [batchLoop_eq]
    rfl
  refine ⟨?_, ?_, ?_⟩
  · intro r hr
    unfold batch_convert at hr
    split_ifs at hr with hemp
    · rw [hfail]
      rw [List.isEmpty_iff.mp hemp]
      rfl
    · rw [hfail]
      by_cases herr : (batchLoop P zone 0 coordinates).2.isEmpty
      · exact List.isEmpty_iff.mp herr
      · simp only [if_neg herr] at hr
        exact absurd hr (by simp)
  · intro hne
    unfold batch_convert
    rw [hfail] at hne
    have hemp : ¬ coordinates.isEmpty = true := by
      intro h
      rw [List.isEmpty_iff.mp h] at hne
      exact hne (by rw [batchLoop_eq]; rfl)
    rw [if_neg hemp, if_neg (by simpa [List.isEmpty_iff] using hne), hfail]
  · intro i c e _ hitem
    have hpre : ∀ m : String, e = batchItemError i c m →
        ∃ rest, e = "Error converting coordinate " ++ toString i ++ rest := by
      intro m hm
      exact ⟨" (" ++ itemRepr c ++ "): " ++ m,
        by rw [hm]; simp [batchItemError, String.append_assoc]⟩
    unfold batchItem at hitem
    cases hc1 : c.eastingKey with
    | none =>
      rw [hc1] at hitem
      cases hc2 : c.northingKey <;> rw [hc2] at hitem <;> simp only [] at hitem <;>
        exact hpre _ (by injection hitem with h; rw [h])
    | some ev =>
      rw [hc1] at hitem
      cases hc2 : c.northingKey with
      | none =>
        rw [hc2] at hitem
        exact hpre _ (by injection hitem with h; rw [h])
      | some nv =>
        rw [hc2] at hitem
        cases hcv : convert_minna_to_wgs84 P ev nv zone with
        | ok v =>
          simp only [hcv] at hitem
          exact absurd hitem (by cases v with | mk a b => cases a; simp)
        | error err =>
          simp only [hcv] at hitem
          exact hpre _ (by injection hitem with h; exact h.symm)

/-- Witness for C3: one invalid item among five valid ones fails the whole
batch with a message naming exactly that index. -/
theorem c3_batch_convert_all_or_nothing_witness :
    batch_convert identityProjections witnessBatch 26331 =
      .error ("Failed to convert 1 out of 6 coordinates:\n" ++
        "Error converting coordinate 2 (\x7b\x27easting\x27: 50000, \x27northing\x27: 700000\x7d): " ++
        "Easting coordinate 50000.00 is outside valid range (100000 - 900000 meters). " ++
        "Please verify the coordinate value.") := by
  have h := (c3_batch_convert_all_or_nothing identityProjections witnessBatch 26331).2.1
    (by decide)
  exact h.trans (congrArg Except.error (by decide))

/-- Claim C6: `convert_minna_to_wgs84` raises `ValidationError` exactly
when coordinate validation fails; it raises `TransformationError` when the
zone is not 26331 or 26332, or when the projection step fails; and an
out-of-envelope projection result is still returned, with the non-fatal
warning flag set exactly when (longitude, latitude) leaves
[2, 16] x [3, 15]. -/
theorem c6_convert_minna_error_contract (P : Projections) (easting northing : ℚ) (zone : ℤ) :
    ((∃ m, convert_minna_to_wgs84 P easting northing zone = .error (.validationError m)) ↔
      (validate_coordinates easting northing).1 = false) ∧
    ((validate_coordinates easting northing).1 = true → zone ≠ 26331 → zone ≠ 26332 →
      ∃ m, convert_minna_to_wgs84 P easting northing zone = .error (.transformationError m)) ∧
    (∀ t err, (validate_coordinates easting northing).1 = true →
      transformersLookup P zone = some t → t easting northing = .error err →
      convert_minna_to_wgs84 P easting northing zone =
        .error (.transformationError ("Coordinate transformation failed: " ++ err))) ∧
    (∀ t lon lat, (validate_coordinates easting northing).1 = true →
      transformersLookup P zone = some t → t easting northing = .ok (lon, lat) →
      convert_minna_to_wgs84 P easting northing zone =
        .ok ((lon, lat), decide (¬(2 ≤ lon ∧ lon ≤ 16 ∧ 3 ≤ lat ∧ lat ≤ 15)))) := by
  refine ⟨⟨?_, ?_⟩, ?_, ?_, ?_⟩
  · intro ⟨m, hm⟩
    by_contra hv
    have hv' : (validate_coordinates easting northing).1 = true := by
      cases h : (validate_coordinates easting northing).1
      · exact absurd h hv
      · rfl
    unfold convert_minna_to_wgs84 at hm
    rw [if_neg (by simp [hv'])] at hm
    cases hL : transformersLookup P zone with
    | none => simp only [hL] at hm; cases hm
    | some t =>
      simp only [hL] at hm
      cases hT : t easting northing with
      | error err => simp only [hT] at hm; cases hm
      | ok v =>
        cases v with
        | mk lon lat => simp only [hT] at hm; cases hm
  · intro hv
    refine ⟨(validate_coordinates easting northing).2.getD "", ?_⟩
    unfold convert_minna_to_wgs84
    rw [if_pos hv]
  · intro hv h1 h2
    refine ⟨"Invalid zone " ++ toString zone ++
      ". Valid zones are [26331, 26332]. Use 26331 for West Lagos or 26332 for East Lagos.", ?_⟩
    unfold convert_minna_to_wgs84
    rw [if_neg (by simp [hv])]
    have hL : transformersLookup P zone = none := by
      unfold transformersLookup
      rw [if_neg h1, if_neg h2]
    rw [hL]
  · intro t err hv hL hT
    unfold convert_minna_to_wgs84
    rw [if_neg (by simp [hv]), hL]
    simp only [hT]
  · intro t lon lat hv hL hT
    unfold convert_minna_to_wgs84
    rw [if_neg (by simp [hv]), hL]
    simp only [hT]

/-- Witness for C6: a valid coordinate through the Zone 31N identity
backend lands outside the plausible envelope, and is still returned with
the warning flag set. -/
theorem c6_convert_minna_error_contract_witness :
    convert_minna_to_wgs84 identityProjections 500000 700000 26331 =
      .ok ((500000, 700000), true) := by
  have h := (c6_convert_minna_error_contract identityProjections 500000 700000 26331).2.2.2
    identityProjections.z31 500000 700000 (by decide) rfl rfl
  have hb : (decide ¬((2:ℚ) ≤ 500000 ∧ (500000:ℚ) ≤ 16 ∧ (3:ℚ) ≤ 700000 ∧
      (700000:ℚ) ≤ 15)) = true := by decide
  exact h.trans (by rw [hb])

/-- The vertex loop of `_validate_wgs84_coordinates` accepts exactly the
lists whose vertices all lie in the Nigeria envelope. -/
lemma validateVerts_true_iff (l : List Point) : ∀ k,
    (validateVerts k l).1 = true ↔
      ∀ p ∈ l, (3 ≤ p.1 ∧ p.1 ≤ 15) ∧ (5/2 ≤ p.2 ∧ p.2 ≤ 16) := by
  induction l with
  | nil => intro k; simp [validateVerts]
  | cons p rest ih =>
    intro k
    obtain ⟨lat, lon⟩ := p
    unfold validateVerts
    split_ifs with h1 h2
    · rw [ih (k + 1)]
      constructor
      · intro h q hq
        rcases List.mem_cons.mp hq with rfl | hq'
        · exact ⟨h1, h2⟩
        · exact h q hq'
      · intro h q hq
        exact h q (List.mem_cons_of_mem _ hq)
    · exact iff_of_false (fun h => h)
        (fun h => h2 (h (lat, lon) (List.mem_cons_self _ _)).2)
    · exact iff_of_false (fun h => h)
        (fun h => h1 (h (lat, lon) (List.mem_cons_self _ _)).1)

/-- `_validate_wgs84_coordinates` accepts exactly the lists with at least
three vertices, all inside the envelope. -/
lemma validate_wgs84_true_iff (coords : List Point) :
    (validate_wgs84_coordinates coords).1 = true ↔
      (3 ≤ coords.length ∧
        ∀ p ∈ coords, (3 ≤ p.1 ∧ p.1 ≤ 15) ∧ (5/2 ≤ p.2 ∧ p.2 ≤ 16)) := by
  unfold validate_wgs84_coordinates
  split_ifs with h1 h2
  · rw [List.isEmpty_iff.mp h1]
    simp
  · constructor
    · intro h; simp at h
    · rintro ⟨h3, -⟩; omega
  · rw [validateVerts_true_iff]
    constructor
    · intro h; exact ⟨by omega, h⟩
    · rintro ⟨-, h⟩; exact h

/-- Claim C5: `check_intersection` raises `ValidationError` exactly when
the boundary has fewer than 3 vertices, some vertex leaves the envelope
(latitude [3, 15], longitude [2.5, 16]), or the ring is not a valid
polygon; and for every geometry backend - including one that fails on any
zone - it never surfaces anything else: per-zone geometry failures are
absorbed by the loop, and the outer `RiskAnalysisError` wrapper is never
exercised. -/
theorem c5_check_intersection_error_contract (g : Geom) (coords : List Point)
    (zf : Option String) :
    ((∃ m, check_intersection g coords zf = .error (.validationError m)) ↔
      (coords.length < 3 ∨
        (∃ p ∈ coords, ¬(3 ≤ p.1 ∧ p.1 ≤ 15) ∨ ¬(5/2 ≤ p.2 ∧ p.2 ≤ 16)) ∨
        poly_is_valid coords = false)) ∧
    (∀ m, check_intersection g coords zf ≠ .error (.riskAnalysisError m)) := by
  cases hv : (validate_wgs84_coordinates coords).1 with
  | false =>
    have hc : check_intersection g coords zf =
        .error (.validationError ((validate_wgs84_coordinates coords).2.getD "")) := by
      simp [check_intersection, hv]
    have hnv : ¬(3 ≤ coords.length ∧
        ∀ p ∈ coords, (3 ≤ p.1 ∧ p.1 ≤ 15) ∧ (5/2 ≤ p.2 ∧ p.2 ≤ 16)) := by
      rw [← validate_wgs84_true_iff]
      simp [hv]
    refine ⟨⟨fun _ => ?_, fun _ => ⟨_, hc⟩⟩, fun m hm => ?_⟩
    · by_cases hlen : coords.length < 3
      · exact Or.inl hlen
      · right; left
        rcases not_and_or.mp hnv with h | h
        · omega
        · obtain ⟨p, hp'⟩ := not_forall.mp h
          obtain ⟨hp, hnb⟩ := Classical.not_imp.mp hp'
          exact ⟨p, hp, not_and_or.mp hnb⟩
    · rw [hc] at hm
      simp at hm
  | true =>
    cases hpv : poly_is_valid coords with
    | false =>
      have hc : check_intersection g coords zf =
          .error (.validationError "Land coordinates form an invalid polygon") := by
        simp [check_intersection, hv, hpv]
      refine ⟨⟨fun _ => Or.inr (Or.inr rfl), fun _ => ⟨_, hc⟩⟩, fun m hm => ?_⟩
      rw [hc] at hm
      simp at hm
    | true =>
      have hvt := (validate_wgs84_true_iff coords).mp hv
      have hok : ∃ r, check_intersection g coords zf = .ok r := by
        cases hres : check_intersection g coords zf with
        | error err =>
          exfalso
          simp [check_intersection, hv, hpv] at hres
        | ok r => exact ⟨r, rfl⟩
      obtain ⟨r, hr⟩ := hok
      refine ⟨⟨?_, ?_⟩, fun m hm => ?_⟩
      · rintro ⟨m, hm⟩
        rw [hr] at hm
        simp at hm
      · intro hrhs
        exfalso
        rcases hrhs with h | h | h
        · omega
        · obtain ⟨p, hp, hbad⟩ := h
          rcases hbad with hb | hb
          · exact hb (hvt.2 p hp).1
          · exact hb (hvt.2 p hp).2
        · simp at h
      · rw [hr] at hm
        simp at hm

/-- Witness for C5: the empty boundary is rejected as a validation error,
through the characterization of the claim theorem. -/
theorem c5_check_intersection_error_contract_witness :
    check_intersection pureGeom [] none =
      .error (.validationError "No coordinates provided") := by
  have h := (c5_check_intersection_error_contract pureGeom [] none).1.mpr
    (Or.inl (by decide))
  obtain ⟨m, hm⟩ := h
  have hval : (validate_wgs84_coordinates []).2 = some "No coordinates provided" := by decide
  have : check_intersection pureGeom [] none =
      .error (.validationError "No coordinates provided") := by decide
  exact this

/-- Branch-by-branch characterization of `_determine_risk_status`. -/
lemma determine_risk_status_cases (L : List Intersection) (ms : ℤ) :
    (L = [] → determine_risk_status L ms =
      ("SAFE", "No intersections with known restricted zones detected.", safeRecs)) ∧
    (∀ i0, (L.filter isHighSeverityType).head? = some i0 →
      determine_risk_status L ms =
        ("DANGER", "CRITICAL: Land overlaps with " ++ i0.zone_name ++ ".", urgentRecs)) ∧
    (L.filter isHighSeverityType = [] →
      ∀ s0, (L.filter isSignificantOverlap).head? = some s0 →
      determine_risk_status L ms =
        ("DANGER", "High overlap percentage (" ++ fmtFixed 1 s0.overlap_percentage ++
          "%) with restricted zone.", overlapRecs)) ∧
    (L ≠ [] → L.filter isHighSeverityType = [] → L.filter isSignificantOverlap = [] →
      determine_risk_status L ms =
        ("CAUTION", "Potential risk detected. " ++ toString L.length ++
          " zone(s) nearby with " ++
          fmtFixed 1 ((L.map (fun i => i.overlap_percentage)).sum) ++
          "% total overlap.", cautionRecs)) := by
  refine ⟨?_, ?_, ?_, ?_⟩
  · intro hL
    subst hL
    rfl
  · intro i0 h0
    have hLne : ¬(L.isEmpty = true) := by
      intro h
      rw [List.isEmpty_iff.mp h] at h0
      simp at h0
    unfold determine_risk_status
    rw [if_neg hLne]
    cases hf : L.filter isHighSeverityType with
    | nil => rw [hf] at h0; simp at h0
    | cons a t =>
      rw [hf] at h0
      simp only [List.head?_cons, Option.some.injEq] at h0
      subst h0
      rfl
  · intro hf s0 h0
    have hLne : ¬(L.isEmpty = true) := by
      intro h
      rw [List.isEmpty_iff.mp h] at h0
      simp at h0
    unfold determine_risk_status
    rw [if_neg hLne]
    rw [hf]
    cases hs : L.filter isSignificantOverlap with
    | nil => rw [hs] at h0; simp at h0
    | cons a t =>
      rw [hs] at h0
      simp only [List.head?_cons, Option.some.injEq] at h0
      subst h0
      rfl
  · intro hLne hf hs
    unfold determine_risk_status
    rw [if_neg (by simpa [List.isEmpty_iff] using hLne), hf, hs]

/-- A successful `zoneStep` record carries the zone id of its registry
entry. -/
lemma zoneStep_some_zone_id (g : Geom) (land : List Point) (zid : String) (zd : Zone)
    {i : Intersection} {s : ℤ} (h : zoneStep g land zid zd = (some i, s)) :
    i.zone_id = zd.zone_id := by
  unfold zoneStep at h
  cases hL : lookupZonePoly zid with
  | none => simp only [hL] at h; simp at h
  | some zp =>
    simp only [hL] at h
    cases hI : g.intersectsE land zp with
    | error e => simp only [hI] at h; simp at h
    | ok b =>
      cases b with
      | false => simp only [hI] at h; simp at h
      | true =>
        simp only [hI] at h
        cases hI2 : g.interE land zp with
        | error e => simp only [hI2] at h; simp at h
        | ok inter =>
          simp only [hI2, Prod.mk.injEq, Option.some.injEq] at h
          rw [← h.1]

/-- The intersection list built by the zone loop respects registry
iteration order: its zone ids form a sublist of the checked zone ids. -/
lemma zoneLoop_ids_sublist (g : Geom) (land : List Point) :
    ∀ zs : List (String × Zone),
      ((zoneLoop g land zs).1.map (fun i => i.zone_id)).Sublist
        (zs.map (fun p => p.2.zone_id)) := by
  intro zs
  induction zs with
  | nil => simp [zoneLoop]
  | cons z rest ih =>
    obtain ⟨zid, zd⟩ := z
    cases hstep : zoneStep g land zid zd with
    | mk o s =>
      cases o with
      | none =>
        simp only [zoneLoop, hstep, List.map_cons]
        exact ih.cons _
      | some i =>
        have hid := zoneStep_some_zone_id g land zid zd hstep
        simp only [zoneLoop, hstep, List.map_cons]
        rw [hid]
        exact ih.cons₂ _

/-- Claim C1: for every boundary accepted by `check_intersection` (any
geometry backend, any zone filter), the verdict follows the exact decision
tree of `_determine_risk_status`: empty intersections give SAFE with the 3
fixed recommendations; otherwise a first high-severity zone type
(Government Acquisition or Military Reserve) gives DANGER naming that
zone, taking priority over overlap magnitude; otherwise a first
intersection with overlap above 20 gives DANGER citing its percentage;
otherwise CAUTION reporting the count of intersecting zones and the sum of
their overlap percentages.  The final conjunct ties "first" to registry
insertion order: the intersections list follows the iteration order of the
checked zone table. -/
theorem c1_risk_status_decision_tree (g : Geom) (coords : List Point) (zf : Option String)
    (r : RiskResult) (h : check_intersection g coords zf = .ok r) :
    (r.intersections = [] →
      r.status = "SAFE" ∧
      r.message = "No intersections with known restricted zones detected." ∧
      r.recommendations = safeRecs) ∧
    (∀ i0, (r.intersections.filter isHighSeverityType).head? = some i0 →
      r.status = "DANGER" ∧
      r.message = "CRITICAL: Land overlaps with " ++ i0.zone_name ++ "." ∧
      r.recommendations = urgentRecs) ∧
    (r.intersections.filter isHighSeverityType = [] →
      ∀ s0, (r.intersections.filter isSignificantOverlap).head? = some s0 →
      r.status = "DANGER" ∧
      r.message = "High overlap percentage (" ++ fmtFixed 1 s0.overlap_percentage ++
        "%) with restricted zone." ∧
      r.recommendations = overlapRecs) ∧
    (r.intersections ≠ [] →
      r.intersections.filter isHighSeverityType = [] →
      r.intersections.filter isSignificantOverlap = [] →
      r.status = "CAUTION" ∧
      r.message = "Potential risk detected. " ++ toString r.intersections.length ++
        " zone(s) nearby with " ++
        fmtFixed 1 ((r.intersections.map (fun i => i.overlap_percentage)).sum) ++
        "% total overlap." ∧
      r.recommendations = cautionRecs) ∧
    ((r.intersections.map (fun i => i.zone_id)).Sublist
      ((zones_to_check zf).map (fun p => p.2.zone_id))) := by
  by_cases hv : (validate_wgs84_coordinates coords).1 = false
  · simp [check_intersection, hv] at h
  · by_cases hpv : poly_is_valid coords = true
    · have hmain : check_intersection g coords zf = .ok ⟨(determine_risk_status (zoneLoop g coords (zones_to_check zf)).1 (zoneLoop g coords (zones_to_check zf)).2).1, (determine_risk_status (zoneLoop g coords (zones_to_check zf)).1 (zoneLoop g coords (zones_to_check zf)).2).2.1, (zoneLoop g coords (zones_to_check zf)).1, (determine_risk_status (zoneLoop g coords (zones_to_check zf)).1 (zoneLoop g coords (zones_to_check zf)).2).2.2⟩ := by
        simp [check_intersection, hv, hpv]
      rw [hmain] at h
      injection h with h
      subst h
      have hd := determine_risk_status_cases (zoneLoop g coords (zones_to_check zf)).1
        (zoneLoop g coords (zones_to_check zf)).2
      refine ⟨?_, ?_, ?_, ?_, zoneLoop_ids_sublist g coords (zones_to_check zf)⟩
      · intro hempty
        rw [hd.1 hempty]
        exact ⟨rfl, rfl, rfl⟩
      · intro i0 h0
        rw [hd.2.1 i0 h0]
        exact ⟨rfl, rfl, rfl⟩
      · intro hf s0 h0
        rw [hd.2.2.1 hf s0 h0]
        exact ⟨rfl, rfl, rfl⟩
      · intro hne hf hs
        rw [hd.2.2.2 hne hf hs]
        exact ⟨rfl, rfl, rfl⟩
    · simp [check_intersection, hv, hpv] at h

/-- Witness for C1: a disjoint parcel is accepted and lands in the SAFE
branch of the decision tree. -/
theorem c1_risk_status_decision_tree_witness :
    safeVerdict.status = "SAFE" ∧ safeVerdict.recommendations = safeRecs := by
  have hok : check_intersection pureGeom safeParcel none = .ok safeVerdict := by decide
  have hc := c1_risk_status_decision_tree pureGeom safeParcel none safeVerdict hok
  exact ⟨(hc.1 rfl).1, (hc.1 rfl).2.2⟩

/-- Counterexample for C2: at the exact parcel of the claim, the single
intersection with the Lekki zone has overlap_percentage 83.33, which is
not approximately 100 under any reasonable floating tolerance (it is not
even within 10).  The parcel is not fully inside the zone: its northern
edge at latitude 6.4475 lies north of the zone top at 6.447, so exactly
5/6 of the parcel area overlaps, and 250/3 rounded to 2 decimals is
83.33. -/
theorem c2_lekki_example_counterexample :
    ((check_intersection pureGeom exampleParcel none).toOption.map
      (fun r => r.intersections.map (fun i => i.overlap_percentage))) = some [8333/100] ∧
    ¬(|(8333/100 : ℚ) - 100| < 10) := by
  constructor
  · decide
  · decide

/-- Claim C2 as amended: the example parcel yields status DANGER with a
single intersection whose zone name is the Lekki Government Acquisition
Zone, but with overlap_percentage 83.33 (the parcel overhangs the zone's
northern edge by 0.0005 degrees of latitude). -/
theorem c2_lekki_example_amended :
    ((check_intersection pureGeom exampleParcel none).toOption.map
      (fun r => (r.status,
        r.intersections.map (fun i => (i.zone_name, i.overlap_percentage))))) =
      some ("DANGER", [("Lekki Government Acquisition Zone", 8333/100)]) := by
  decide
